import Mathlib

namespace Mqtt

/-!
Shallow embedding of the lws minimal MQTT client example
(`minimal-examples/mqtt-client/minimal-mqtt-client/minimal-mqtt-client.c`):
the session state machine driven by `callback_mqtt`, the chunked payload
feeder of its WRITEABLE branch, and the retry policy of its RESEND branch.
-/

/-- `STATE_SUBSCRIBE` of the C state enum (lines 17 to 25). `pss->state` is a
C `int`, so states are embedded as `Int`. -/
abbrev STATE_SUBSCRIBE : Int := 0

/-- `STATE_PUBLISH_QOS0` of the C state enum. -/
abbrev STATE_PUBLISH_QOS0 : Int := 1

/-- `STATE_WAIT_ACK0` of the C state enum. -/
abbrev STATE_WAIT_ACK0 : Int := 2

/-- `STATE_PUBLISH_QOS1` of the C state enum. -/
abbrev STATE_PUBLISH_QOS1 : Int := 3

/-- `STATE_WAIT_ACK1` of the C state enum. -/
abbrev STATE_WAIT_ACK1 : Int := 4

/-- `STATE_TEST_FINISH` of the C state enum. -/
abbrev STATE_TEST_FINISH : Int := 5

/-- The macro `TEST_STRING_LEN`, the length of `test_string`. -/
abbrev TEST_STRING_LEN : Nat := 1337

/-- The per-session data `struct pss`: `state` is a C `int`, `pos` a `size_t`
cursor into the payload (always at most `TEST_STRING_LEN` in reachable
configurations, so `Nat` truncated subtraction agrees with the `size_t`
subtraction at line 215), `retries` the resend counter. -/
structure Pss where
  state : Int
  pos : Nat
  retries : Nat
deriving DecidableEq, Repr

/-- The process-wide flags the callback touches: `interrupted` and `bad`
(the run-level failed flag, initialised to 1 at line 27). -/
structure Globals where
  interrupted : Bool
  bad : Bool
deriving DecidableEq, Repr

/-- Outbound calls `callback_mqtt` makes into the lws library:
`subscribe` is `lws_mqtt_client_send_subcribe`, `publish qos0 off chunk final`
is `lws_mqtt_client_send_publish(wsi, &pub_param, test_string + off, chunk,
off + chunk == TEST_STRING_LEN)` with `pub_param.qos` `QOS0` iff `qos0`,
`callbackOnWritable` is `lws_callback_on_writable`, `cancelService` is
`lws_cancel_service`. -/
inductive Action where
  | subscribe
  | publish (qos0 : Bool) (off chunk : Nat) (final : Bool)
  | callbackOnWritable
  | cancelService
deriving DecidableEq, Repr

/-- The callback reasons `callback_mqtt` handles. `writable` carries the
environment's choice of whether `lws_mqtt_client_send_subcribe`
(`subOk`) and `lws_mqtt_client_send_publish` (`pubOk`) return success. -/
inductive Event where
  | connError
  | closed
  | established
  | subscribed
  | writable (subOk pubOk : Bool)
  | ack
  | resend
  | rx
deriving DecidableEq, Repr

/-- Result of one invocation of `callback_mqtt`: updated session data and
globals, the list of outbound calls made, and the callback's return code. -/
structure StepOut where
  pss : Pss
  g : Globals
  acts : List Action
  rc : Int
deriving DecidableEq, Repr

/-- The event handler `callback_mqtt` (lines 152 to 285), embedded as a pure
function from the session data, the globals and the delivered event to a
`StepOut`. Each match arm mirrors one `case` of the C `switch (reason)`;
the `writable` arm mirrors the inner `switch (pss->state)`. -/
def callback_mqtt (pss : Pss) (g : Globals) (e : Event) : StepOut :=
  match e with
  | .connError => ⟨pss, { g with interrupted := true }, [], 0⟩
  | .closed => ⟨pss, { g with interrupted := true }, [], 0⟩
  | .established => ⟨pss, g, [.callbackOnWritable], 0⟩
  | .subscribed => ⟨pss, g, [], 0⟩
  | .writable subOk pubOk =>
      if pss.state = STATE_SUBSCRIBE then
        if subOk then ⟨{ pss with state := pss.state + 1 }, g, [.subscribe], 0⟩
        else ⟨pss, g, [.subscribe], -1⟩
      else if pss.state = STATE_PUBLISH_QOS0 ∨ pss.state = STATE_PUBLISH_QOS1 then
        let chunk := if 300 > TEST_STRING_LEN - pss.pos then TEST_STRING_LEN - pss.pos else 300
        let act := Action.publish (pss.state == STATE_PUBLISH_QOS0) pss.pos chunk
          (decide (pss.pos + chunk = TEST_STRING_LEN))
        if pubOk then
          if pss.pos + chunk = TEST_STRING_LEN then
            ⟨{ pss with pos := 0, state := pss.state + 1 }, g, [act], 0⟩
          else ⟨{ pss with pos := pss.pos + chunk }, g, [act], 0⟩
        else ⟨pss, g, [act], -1⟩
      else ⟨pss, g, [], 0⟩
  | .ack =>
      if pss.state + 1 ≠ STATE_TEST_FINISH then
        ⟨{ pss with state := pss.state + 1 }, g, [], 0⟩
      else
        ⟨{ pss with state := pss.state + 1 },
         { g with bad := false, interrupted := true }, [.cancelService], 0⟩
  | .resend =>
      if pss.retries + 1 = 3 then
        ⟨{ pss with retries := pss.retries + 1 }, { g with interrupted := true }, [], 0⟩
      else
        ⟨{ pss with retries := pss.retries + 1, state := pss.state - 1, pos := 0 }, g, [], 0⟩
  | .rx => ⟨pss, g, [], 0⟩

/-- A configuration of the whole program as the callback sees it: the
per-session data plus the run-level flags. -/
structure Config where
  pss : Pss
  g : Globals
deriving DecidableEq, Repr

/-- The initial configuration: lws zeroes the per-session data
(`per_session_data_size` allocation), `interrupted = 0` and `bad = 1`
(line 27). -/
def initConfig : Config := ⟨⟨0, 0, 0⟩, ⟨false, true⟩⟩

/-- Modelled from the spec: the lws event dispatch around `callback_mqtt`,
which is not under `src/`. When the callback returns nonzero, lws closes the
connection and delivers `LWS_CALLBACK_MQTT_CLIENT_CLOSED` back to the
callback (spec section 7: a send failure "surfaces as an immediate terminal
failure"; section 4.1: unexpected closure marks the run failed and requests
loop termination). `drive` delivers one event and returns the new
configuration together with the outbound calls made. -/
def drive (c : Config) (e : Event) : Config × List Action :=
  let r := callback_mqtt c.pss c.g e
  if r.rc = 0 then (⟨r.pss, r.g⟩, r.acts)
  else
    let r2 := callback_mqtt r.pss r.g .closed
    (⟨r2.pss, r2.g⟩, r.acts ++ r2.acts)

/-- The configuration after delivering one event. -/
def runStep (c : Config) (e : Event) : Config := (drive c e).1

/-- Deliver a list of events in order, collecting all outbound calls. -/
def run : Config → List Event → Config × List Action
  | c, [] => (c, [])
  | c, e :: es =>
      let p := drive c e
      let q := run p.1 es
      (q.1, p.2 ++ q.2)

/-- The chunk-size computation of the WRITEABLE publish branch
(lines 213 to 216): `chunk = C; if (chunk > L - cursor) chunk = L - cursor;`,
with the constants 300 and `TEST_STRING_LEN` generalized to parameters `C`
and `L` as in spec section 4.2. -/
def chunkAt (C L cursor : Nat) : Nat :=
  if C > L - cursor then L - cursor else C

/-- Repeated application of the chunked payload feeder from a given cursor
(lines 211 to 228, generalized over `C` and `L`): each step emits
`(chunkAt C L cursor, cursor + chunk == L)` and advances the cursor by the
chunk size, stopping after the chunk whose end offset reaches `L`. The
`fuel` argument bounds the recursion; `L + 1` steps always suffice when
`C ≥ 1` (each non-final chunk advances the cursor by at least one). -/
def feedFrom : Nat → Nat → Nat → Nat → List (Nat × Bool)
  | 0, _, _, _ => []
  | fuel + 1, C, L, cursor =>
      let sz := chunkAt C L cursor
      if cursor + sz = L then [(sz, true)]
      else (sz, false) :: feedFrom fuel C L (cursor + sz)

/-- All chunks the feeder produces for a payload of length `L` with maximum
chunk size `C`, starting from cursor 0. -/
def feed (C L : Nat) : List (Nat × Bool) := feedFrom (L + 1) C L 0

/-- The event sequence of spec scenario B: connection established, the
subscribe sent on the first writable, five QoS0 chunks, the synthetic ack,
five QoS1 chunks, the genuine ack. -/
def scenarioBEvents : List Event :=
  .established :: .writable true true :: List.replicate 5 (.writable true true) ++
    [.ack] ++ List.replicate 5 (.writable true true) ++ [.ack]

/-- Modelled from the spec: which events the transport collaborator (the lws
library, whose dispatch code is not under `src/`) can deliver in a given
configuration. Any event may arrive while the event loop runs, and the loop
(line 336) dispatches nothing once `interrupted` is set; per spec sections
4.1 and 6 an acknowledgement is delivered only while a publish awaits one
(the synthetic ack after the final QoS0 chunk, the genuine QoS1 ack), and a
resend request only for the in-flight QoS1 message, i.e. in AwaitingAck1. -/
inductive Admissible : Config → Event → Prop where
  | connError {c} : c.g.interrupted = false → Admissible c .connError
  | closed {c} : c.g.interrupted = false → Admissible c .closed
  | established {c} : c.g.interrupted = false → Admissible c .established
  | subscribed {c} : c.g.interrupted = false → Admissible c .subscribed
  | writable {c} (subOk pubOk : Bool) : c.g.interrupted = false →
      Admissible c (.writable subOk pubOk)
  | rx {c} : c.g.interrupted = false → Admissible c .rx
  | ack {c} : c.g.interrupted = false →
      c.pss.state = STATE_WAIT_ACK0 ∨ c.pss.state = STATE_WAIT_ACK1 →
      Admissible c .ack
  | resend {c} : c.g.interrupted = false → c.pss.state = STATE_WAIT_ACK1 →
      Admissible c .resend

/-- Configurations reachable from the initial configuration by delivering
admissible events. -/
inductive Reachable : Config → Prop where
  | init : Reachable initConfig
  | step {c e} : Reachable c → Admissible c e → Reachable (runStep c e)

/-- Inductive invariant of reachable configurations: the retry counter never
passes 3, and hitting 3 interrupts the run with the failed flag still set;
the failed flag is cleared exactly in the finished state, which also has the
interrupt flag set. -/
def Inv (c : Config) : Prop :=
  c.pss.retries ≤ 3 ∧
  (c.pss.retries = 3 → c.g.interrupted = true ∧ c.g.bad = true) ∧
  (c.g.bad = false → c.pss.state = STATE_TEST_FINISH ∧ c.g.interrupted = true) ∧
  (c.pss.state = STATE_TEST_FINISH → c.g.interrupted = true ∧ c.g.bad = false)

/-- The chunk size is the minimum of the maximum chunk size and the bytes
left, as long as the cursor has not passed the end of the payload. -/
theorem chunkAt_eq_min (C L cursor : Nat) : chunkAt C L cursor = min C (L - cursor) := by
  rw [chunkAt, min_def]
  split_ifs <;> omega

/-- Decomposition of a feeder run from any cursor position at most `L`:
all chunks but the last are non-final, the last is final, and the sizes sum
to the bytes left. -/
theorem feedFrom_decomp (fuel C L : Nat) (hC : 1 ≤ C) :
    ∀ cursor, cursor ≤ L → L - cursor < fuel →
    ∃ pre last, feedFrom fuel C L cursor = pre ++ [(last, true)] ∧
      (∀ p ∈ pre, p.2 = false) ∧ (pre.map Prod.fst).sum + last = L - cursor := by
  induction fuel with
  | zero => intro cursor _ hfuel; omega
  | succ fuel ih =>
    intro cursor hcur hfuel
    by_cases h : cursor + chunkAt C L cursor = L
    · refine ⟨[], chunkAt C L cursor, ?_, ?_, ?_⟩
      · simp [feedFrom, h]
      · intro p hp; cases hp
      · simp; omega
    · have hmin := chunkAt_eq_min C L cursor
      have hsz : chunkAt C L cursor = C := by omega
      have hlt : cursor + C < L := by omega
      obtain ⟨pre, last, heq, hall, hsum⟩ :=
        ih (cursor + chunkAt C L cursor) (by omega) (by omega)
      refine ⟨(chunkAt C L cursor, false) :: pre, last, ?_, ?_, ?_⟩
      · simp [feedFrom, h, heq]
      · intro p hp
        rcases List.mem_cons.mp hp with hp | hp
        · rw [hp]
        · exact hall p hp
      · simp at hsum ⊢
        omega

/-- C1: for every payload length `L ≥ 0` and chunk size `C ≥ 1`, repeatedly
applying the chunked payload feeder from cursor 0 produces chunks whose
sizes sum exactly to `L`, with exactly one chunk marked final; the final
chunk is the last one, so its end offset (the total of all sizes) equals
`L`; and `L = 0` produces exactly one zero-length final chunk. -/
theorem feeder_covers_payload (L C : Nat) (hC : 1 ≤ C) :
    ((feed C L).map Prod.fst).sum = L ∧
    ((feed C L).filter (fun p => p.2)).length = 1 ∧
    (∃ sz pre, feed C L = pre ++ [(sz, true)] ∧ (∀ p ∈ pre, p.2 = false) ∧
      (pre.map Prod.fst).sum + sz = L) ∧
    (L = 0 → feed C L = [(0, true)]) := by
  obtain ⟨pre, last, heq, hall, hsum⟩ :=
    feedFrom_decomp (L + 1) C L hC 0 (Nat.zero_le L) (by omega)
  rw [feed] at *
  refine ⟨?_, ?_, ⟨last, pre, heq, hall, by omega⟩, ?_⟩
  · rw [heq]; simp; omega
  · rw [heq]
    rw [List.filter_append]
    have hpre : pre.filter (fun p => p.2) = [] := by
      rw [List.filter_eq_nil_iff]
      intro p hp
      simp [hall p hp]
    rw [hpre]
    simp
  · intro h0
    subst h0
    have hCpos : 0 < C := hC
    show feedFrom 1 C 0 0 = [(0, true)]
    simp [feedFrom, chunkAt, hCpos]

/-- Witness for `feeder_covers_payload` at `L = 5`, `C = 2`
(chunks `[(2, false), (2, false), (1, true)]`). -/
theorem feeder_covers_payload_witness :
    ((feed 2 5).map Prod.fst).sum = 5 ∧
    ((feed 2 5).filter (fun p => p.2)).length = 1 ∧
    (∃ sz pre, feed 2 5 = pre ++ [(sz, true)] ∧ (∀ p ∈ pre, p.2 = false) ∧
      (pre.map Prod.fst).sum + sz = 5) ∧
    (5 = 0 → feed 2 5 = [(0, true)]) :=
  feeder_covers_payload 5 2 (by decide)

/-- C7: for the payload of length 1337 with maximum chunk size 300, a
publish leg driven by repeated writable events sends exactly 5 chunks of
sizes `[300, 300, 300, 300, 137]` at offsets `0, 300, 600, 900, 1200`, with
the final flag true only on the 5th chunk (the one reaching cursor 1337);
this holds for both the QoS0 and the QoS1 leg, and matches the feeder. -/
theorem scenario_a_chunks :
    (run ⟨⟨STATE_PUBLISH_QOS0, 0, 0⟩, ⟨false, true⟩⟩ (List.replicate 5 (.writable true true)) =
      (⟨⟨STATE_WAIT_ACK0, 0, 0⟩, ⟨false, true⟩⟩,
       [.publish true 0 300 false, .publish true 300 300 false, .publish true 600 300 false,
        .publish true 900 300 false, .publish true 1200 137 true])) ∧
    (run ⟨⟨STATE_PUBLISH_QOS1, 0, 0⟩, ⟨false, true⟩⟩ (List.replicate 5 (.writable true true)) =
      (⟨⟨STATE_WAIT_ACK1, 0, 0⟩, ⟨false, true⟩⟩,
       [.publish false 0 300 false, .publish false 300 300 false, .publish false 600 300 false,
        .publish false 900 300 false, .publish false 1200 137 true])) ∧
    feed 300 TEST_STRING_LEN =
      [(300, false), (300, false), (300, false), (300, false), (137, true)] := by
  decide

/-- C4: three successive resend-requested events, each received with the
session in AwaitingAck1 (the re-publish leg between them is driven by
writable events): the first two move the state back to PublishingQoS1 with
the cursor reset to 0, the third sets the interrupt flag while the failed
flag stays set and state and cursor are unchanged. -/
theorem three_resends_terminal :
    (runStep ⟨⟨STATE_WAIT_ACK1, 0, 0⟩, ⟨false, true⟩⟩ .resend
      = ⟨⟨STATE_PUBLISH_QOS1, 0, 1⟩, ⟨false, true⟩⟩) ∧
    ((run ⟨⟨STATE_WAIT_ACK1, 0, 0⟩, ⟨false, true⟩⟩
        (.resend :: List.replicate 5 (.writable true true))).1
      = ⟨⟨STATE_WAIT_ACK1, 0, 1⟩, ⟨false, true⟩⟩) ∧
    (runStep ⟨⟨STATE_WAIT_ACK1, 0, 1⟩, ⟨false, true⟩⟩ .resend
      = ⟨⟨STATE_PUBLISH_QOS1, 0, 2⟩, ⟨false, true⟩⟩) ∧
    ((run ⟨⟨STATE_WAIT_ACK1, 0, 1⟩, ⟨false, true⟩⟩
        (.resend :: List.replicate 5 (.writable true true))).1
      = ⟨⟨STATE_WAIT_ACK1, 0, 2⟩, ⟨false, true⟩⟩) ∧
    (runStep ⟨⟨STATE_WAIT_ACK1, 0, 2⟩, ⟨false, true⟩⟩ .resend
      = ⟨⟨STATE_WAIT_ACK1, 0, 3⟩, ⟨true, true⟩⟩) := by
  decide

/-- C6: a writable event received in AwaitingAck0, AwaitingAck1 or Finished
hits the default arm of the inner switch: session data and flags are
unchanged, no outbound call is made, and the callback returns 0. -/
theorem writable_noop_in_wait_states (pss : Pss) (g : Globals) (subOk pubOk : Bool)
    (h : pss.state = STATE_WAIT_ACK0 ∨ pss.state = STATE_WAIT_ACK1 ∨
      pss.state = STATE_TEST_FINISH) :
    callback_mqtt pss g (.writable subOk pubOk) = ⟨pss, g, [], 0⟩ := by
  rcases h with h | h | h <;> simp [callback_mqtt, h]

/-- Witness for `writable_noop_in_wait_states` in state AwaitingAck0. -/
theorem writable_noop_in_wait_states_witness :
    callback_mqtt ⟨STATE_WAIT_ACK0, 7, 1⟩ ⟨false, true⟩ (.writable true true)
      = ⟨⟨STATE_WAIT_ACK0, 7, 1⟩, ⟨false, true⟩, [], 0⟩ :=
  writable_noop_in_wait_states ⟨STATE_WAIT_ACK0, 7, 1⟩ ⟨false, true⟩ true true (Or.inl rfl)

/-- C8: a failing subscribe or publish send primitive makes the callback
return -1 (which closes the connection, delivering CLIENT_CLOSED, so the
interrupt flag is set and the failed flag is left as it was) with the
session data unchanged: cursor not advanced, retry counter not incremented,
state not changed. -/
theorem send_failure_fatal_no_retry (pss : Pss) (g : Globals) :
    (pss.state = STATE_SUBSCRIBE →
      ∀ pubOk, (callback_mqtt pss g (.writable false pubOk)).pss = pss ∧
        (callback_mqtt pss g (.writable false pubOk)).rc = -1 ∧
        runStep ⟨pss, g⟩ (.writable false pubOk) = ⟨pss, ⟨true, g.bad⟩⟩) ∧
    ((pss.state = STATE_PUBLISH_QOS0 ∨ pss.state = STATE_PUBLISH_QOS1) →
      ∀ subOk, (callback_mqtt pss g (.writable subOk false)).pss = pss ∧
        (callback_mqtt pss g (.writable subOk false)).rc = -1 ∧
        runStep ⟨pss, g⟩ (.writable subOk false) = ⟨pss, ⟨true, g.bad⟩⟩) := by
  constructor
  · intro h pubOk
    refine ⟨?_, ?_, ?_⟩ <;> simp [callback_mqtt, runStep, drive, h]
  · intro h subOk
    have hns : ¬ pss.state = STATE_SUBSCRIBE := by
      rcases h with h | h <;> rw [h] <;> decide
    refine ⟨?_, ?_, ?_⟩ <;> simp [callback_mqtt, runStep, drive, hns, h]

/-- Witness for `send_failure_fatal_no_retry`: a failed subscribe from the
initial configuration. -/
theorem send_failure_fatal_no_retry_witness :
    (callback_mqtt ⟨0, 0, 0⟩ ⟨false, true⟩ (.writable false true)).pss = ⟨0, 0, 0⟩ ∧
    (callback_mqtt ⟨0, 0, 0⟩ ⟨false, true⟩ (.writable false true)).rc = -1 ∧
    runStep ⟨⟨0, 0, 0⟩, ⟨false, true⟩⟩ (.writable false true) = ⟨⟨0, 0, 0⟩, ⟨true, true⟩⟩ :=
  (send_failure_fatal_no_retry ⟨0, 0, 0⟩ ⟨false, true⟩).1 rfl true

/-- C9: an ack event increments the state by exactly one in every state,
without checking that the session is awaiting an ack, and the success
outcome (failed flag cleared, interrupt flag set, service cancelled)
happens exactly when the incremented state equals `STATE_TEST_FINISH`. -/
theorem ack_increments_state (pss : Pss) (g : Globals) :
    (callback_mqtt pss g .ack).pss = { pss with state := pss.state + 1 } ∧
    (callback_mqtt pss g .ack).rc = 0 ∧
    (((callback_mqtt pss g .ack).g.bad = false ∧
      (callback_mqtt pss g .ack).g.interrupted = true ∧
      (callback_mqtt pss g .ack).acts = [.cancelService]) ↔
      pss.state + 1 = STATE_TEST_FINISH) ∧
    (pss.state + 1 ≠ STATE_TEST_FINISH → (callback_mqtt pss g .ack).g = g ∧
      (callback_mqtt pss g .ack).acts = []) := by
  by_cases h : pss.state + 1 = STATE_TEST_FINISH <;> simp [callback_mqtt, h]

/-- Witness for `ack_increments_state`: an ack received in AwaitingAck1
reaches the finished state with the success outcome. -/
theorem ack_increments_state_witness :
    (callback_mqtt ⟨STATE_WAIT_ACK1, 0, 0⟩ ⟨false, true⟩ .ack).pss
      = ⟨STATE_WAIT_ACK1 + 1, 0, 0⟩ ∧
    (callback_mqtt ⟨STATE_WAIT_ACK1, 0, 0⟩ ⟨false, true⟩ .ack).rc = 0 ∧
    (((callback_mqtt ⟨STATE_WAIT_ACK1, 0, 0⟩ ⟨false, true⟩ .ack).g.bad = false ∧
      (callback_mqtt ⟨STATE_WAIT_ACK1, 0, 0⟩ ⟨false, true⟩ .ack).g.interrupted = true ∧
      (callback_mqtt ⟨STATE_WAIT_ACK1, 0, 0⟩ ⟨false, true⟩ .ack).acts = [.cancelService]) ↔
      STATE_WAIT_ACK1 + 1 = STATE_TEST_FINISH) ∧
    (STATE_WAIT_ACK1 + 1 ≠ STATE_TEST_FINISH →
      (callback_mqtt ⟨STATE_WAIT_ACK1, 0, 0⟩ ⟨false, true⟩ .ack).g = ⟨false, true⟩ ∧
      (callback_mqtt ⟨STATE_WAIT_ACK1, 0, 0⟩ ⟨false, true⟩ .ack).acts = []) :=
  ack_increments_state ⟨STATE_WAIT_ACK1, 0, 0⟩ ⟨false, true⟩

/-- C10: a resend event is handled without consulting the state: in every
state, when the incremented retry counter is below the ceiling the state is
decremented by one and the cursor reset to 0 (so a resend outside
AwaitingAck1 produces a backward transition not in the transition table),
and when the incremented counter is exactly 3 only the interrupt flag is
set while state and cursor are unchanged. -/
theorem resend_ignores_state (pss : Pss) (g : Globals) :
    (pss.retries + 1 < 3 →
      callback_mqtt pss g .resend = ⟨⟨pss.state - 1, 0, pss.retries + 1⟩, g, [], 0⟩) ∧
    (pss.retries + 1 = 3 →
      callback_mqtt pss g .resend =
        ⟨⟨pss.state, pss.pos, pss.retries + 1⟩, { g with interrupted := true }, [], 0⟩) := by
  constructor
  · intro h
    simp only [callback_mqtt]
    rw [if_neg (by omega)]
  · intro h
    simp only [callback_mqtt]
    rw [if_pos h]

/-- Witness for `resend_ignores_state`: a resend received in PublishingQoS0
moves the state back to Subscribing and resets the cursor, a backward
transition absent from the spec's transition table. -/
theorem resend_ignores_state_witness :
    callback_mqtt ⟨STATE_PUBLISH_QOS0, 7, 0⟩ ⟨false, true⟩ .resend
      = ⟨⟨STATE_SUBSCRIBE, 0, 1⟩, ⟨false, true⟩, [], 0⟩ :=
  (resend_ignores_state ⟨STATE_PUBLISH_QOS0, 7, 0⟩ ⟨false, true⟩).1 (by decide)

/-- Once the interrupt flag is set, no further event is admissible. -/
theorem no_event_after_interrupt {c : Config} (h : c.g.interrupted = true) (e : Event) :
    ¬ Admissible c e := by
  intro hA
  cases hA <;> simp_all

theorem inv_init : Inv initConfig := by
  constructor <;> simp [initConfig]

theorem inv_step {c : Config} {e : Event} (hI : Inv c) (hA : Admissible c e) :
    Inv (runStep c e) := by
  obtain ⟨⟨s, pos, r⟩, ⟨intr, bad⟩⟩ := c
  obtain ⟨h1, h2, h3, h4⟩ := hI
  cases hA with
  | connError h => simp_all [Inv, runStep, drive, callback_mqtt, STATE_SUBSCRIBE, STATE_PUBLISH_QOS0, STATE_WAIT_ACK0, STATE_PUBLISH_QOS1, STATE_WAIT_ACK1, STATE_TEST_FINISH]
  | closed h => simp_all [Inv, runStep, drive, callback_mqtt, STATE_SUBSCRIBE, STATE_PUBLISH_QOS0, STATE_WAIT_ACK0, STATE_PUBLISH_QOS1, STATE_WAIT_ACK1, STATE_TEST_FINISH]
  | established h => simp_all [Inv, runStep, drive, callback_mqtt, STATE_SUBSCRIBE, STATE_PUBLISH_QOS0, STATE_WAIT_ACK0, STATE_PUBLISH_QOS1, STATE_WAIT_ACK1, STATE_TEST_FINISH]
  | subscribed h => simp_all [Inv, runStep, drive, callback_mqtt, STATE_SUBSCRIBE, STATE_PUBLISH_QOS0, STATE_WAIT_ACK0, STATE_PUBLISH_QOS1, STATE_WAIT_ACK1, STATE_TEST_FINISH]
  | rx h => simp_all [Inv, runStep, drive, callback_mqtt, STATE_SUBSCRIBE, STATE_PUBLISH_QOS0, STATE_WAIT_ACK0, STATE_PUBLISH_QOS1, STATE_WAIT_ACK1, STATE_TEST_FINISH]
  | ack h hs =>
      rcases hs with hs | hs <;>
        simp_all [Inv, runStep, drive, callback_mqtt, STATE_SUBSCRIBE, STATE_PUBLISH_QOS0, STATE_WAIT_ACK0, STATE_PUBLISH_QOS1, STATE_WAIT_ACK1, STATE_TEST_FINISH]
  | resend h hs =>
      by_cases hr : r + 1 = 3 <;>
        simp_all [Inv, runStep, drive, callback_mqtt, STATE_SUBSCRIBE, STATE_PUBLISH_QOS0, STATE_WAIT_ACK0, STATE_PUBLISH_QOS1, STATE_WAIT_ACK1, STATE_TEST_FINISH] <;> omega
  | writable subOk pubOk h =>
      by_cases hs0 : s = STATE_SUBSCRIBE
      · cases subOk <;> simp_all [Inv, runStep, drive, callback_mqtt, STATE_SUBSCRIBE, STATE_PUBLISH_QOS0, STATE_WAIT_ACK0, STATE_PUBLISH_QOS1, STATE_WAIT_ACK1, STATE_TEST_FINISH]
      · by_cases hs13 : s = STATE_PUBLISH_QOS0 ∨ s = STATE_PUBLISH_QOS1
        · cases pubOk
          · rcases hs13 with hs | hs <;>
              simp_all [Inv, runStep, drive, callback_mqtt, STATE_SUBSCRIBE, STATE_PUBLISH_QOS0, STATE_WAIT_ACK0, STATE_PUBLISH_QOS1, STATE_WAIT_ACK1, STATE_TEST_FINISH]
          · by_cases hfin :
              pos + (if 300 > TEST_STRING_LEN - pos then TEST_STRING_LEN - pos else 300)
                = TEST_STRING_LEN <;>
              rcases hs13 with hs | hs <;>
              simp_all [Inv, runStep, drive, callback_mqtt, STATE_SUBSCRIBE, STATE_PUBLISH_QOS0, STATE_WAIT_ACK0, STATE_PUBLISH_QOS1, STATE_WAIT_ACK1, STATE_TEST_FINISH]
        · rw [not_or] at hs13
          simp_all [Inv, runStep, drive, callback_mqtt, STATE_SUBSCRIBE, STATE_PUBLISH_QOS0, STATE_WAIT_ACK0, STATE_PUBLISH_QOS1, STATE_WAIT_ACK1, STATE_TEST_FINISH]

/-- Every reachable configuration satisfies the invariant. -/
theorem inv_of_reachable {c : Config} (h : Reachable c) : Inv c := by
  induction h with
  | init => exact inv_init
  | step _ hA ih => exact inv_step ih hA

/-- C2: along every reachable run, each transition either keeps the state or
advances it; the only backward transition is AwaitingAck1 to PublishingQoS1,
taken on a resend event. -/
theorem state_monotone_except_resend {c : Config} {e : Event}
    (hR : Reachable c) (hA : Admissible c e) :
    c.pss.state ≤ (runStep c e).pss.state ∨
      (e = .resend ∧ c.pss.state = STATE_WAIT_ACK1 ∧
        (runStep c e).pss.state = STATE_PUBLISH_QOS1) := by
  clear hR
  obtain ⟨⟨s, pos, r⟩, ⟨intr, bad⟩⟩ := c
  cases hA with
  | connError h => left; simp [runStep, drive, callback_mqtt]
  | closed h => left; simp [runStep, drive, callback_mqtt]
  | established h => left; simp [runStep, drive, callback_mqtt]
  | subscribed h => left; simp [runStep, drive, callback_mqtt]
  | rx h => left; simp [runStep, drive, callback_mqtt]
  | ack h hs =>
      left
      rcases hs with hs | hs <;>
        simp_all [runStep, drive, callback_mqtt, STATE_WAIT_ACK0, STATE_WAIT_ACK1,
          STATE_TEST_FINISH]
  | resend h hs =>
      by_cases hr : r + 1 = 3
      · left
        simp_all [runStep, drive, callback_mqtt]
      · right
        simp_all [runStep, drive, callback_mqtt, STATE_WAIT_ACK1, STATE_PUBLISH_QOS1]
  | writable subOk pubOk h =>
      left
      by_cases hs0 : s = STATE_SUBSCRIBE
      · cases subOk <;> simp_all [runStep, drive, callback_mqtt]
      · by_cases hs13 : s = STATE_PUBLISH_QOS0 ∨ s = STATE_PUBLISH_QOS1
        · cases pubOk
          · rcases hs13 with hs | hs <;>
              simp_all [runStep, drive, callback_mqtt, STATE_PUBLISH_QOS0,
                STATE_PUBLISH_QOS1]
          · by_cases hfin :
              pos + (if 300 > TEST_STRING_LEN - pos then TEST_STRING_LEN - pos else 300)
                = TEST_STRING_LEN <;>
              rcases hs13 with hs | hs <;>
              simp_all [runStep, drive, callback_mqtt, STATE_PUBLISH_QOS0,
                STATE_PUBLISH_QOS1]
        · rw [not_or] at hs13
          simp_all [runStep, drive, callback_mqtt]

/-- Witness for `state_monotone_except_resend`: the established event on
the initial configuration. -/
theorem state_monotone_except_resend_witness :
    initConfig.pss.state ≤ (runStep initConfig .established).pss.state ∨
      (Event.established = Event.resend ∧ initConfig.pss.state = STATE_WAIT_ACK1 ∧
        (runStep initConfig .established).pss.state = STATE_PUBLISH_QOS1) :=
  state_monotone_except_resend Reachable.init (Admissible.established rfl)

/-- C3: the retry counter starts at 0 and is incremented before the ceiling
check on every invocation of the resend path; in every reachable
configuration it stays at most 3; and once it reaches 3 the run is
terminally failed: the interrupt flag is set, the failed flag is still set,
and no further event (in particular no fourth resend) is admissible. -/
theorem retry_ceiling_terminal :
    initConfig.pss.retries = 0 ∧
    (∀ (pss : Pss) (g : Globals),
      (callback_mqtt pss g .resend).pss.retries = pss.retries + 1) ∧
    (∀ c : Config, Reachable c → c.pss.retries ≤ 3) ∧
    (∀ c : Config, Reachable c → c.pss.retries = 3 →
      c.g.interrupted = true ∧ c.g.bad = true ∧ ∀ e, ¬ Admissible c e) := by
  refine ⟨rfl, ?_, ?_, ?_⟩
  · intro pss g
    simp only [callback_mqtt]
    split_ifs <;> rfl
  · intro c hR
    exact (inv_of_reachable hR).1
  · intro c hR hr
    obtain ⟨hi, hb⟩ := (inv_of_reachable hR).2.1 hr
    exact ⟨hi, hb, fun e => no_event_after_interrupt hi e⟩

/-- Witness for `retry_ceiling_terminal` at the initial configuration. -/
theorem retry_ceiling_terminal_witness :
    initConfig.pss.retries = 0 ∧ initConfig.pss.retries ≤ 3 :=
  ⟨retry_ceiling_terminal.1, retry_ceiling_terminal.2.2.1 initConfig Reachable.init⟩

/-- C5: the run-level failed flag starts true; in every reachable
configuration it is cleared exactly in the Finished state, and then the
interrupt flag is set too; every fatal condition hit from a live reachable
configuration (connection error, unexpected closure, failed subscribe or
publish send, third resend) sets the interrupt flag and leaves the failed
flag set; and the full legitimate sequence of scenario B (subscribe, five
QoS0 chunks, synthetic ack, five QoS1 chunks, genuine ack) ends in Finished
with the failed flag cleared. -/
theorem failed_flag_lifecycle :
    initConfig.g.bad = true ∧
    (∀ c : Config, Reachable c → (c.g.bad = false ↔ c.pss.state = STATE_TEST_FINISH)) ∧
    (∀ c : Config, Reachable c → c.g.bad = false → c.g.interrupted = true) ∧
    (∀ c : Config, Reachable c → c.g.interrupted = false →
      ((runStep c .connError).g.interrupted = true ∧ (runStep c .connError).g.bad = true) ∧
      ((runStep c .closed).g.interrupted = true ∧ (runStep c .closed).g.bad = true) ∧
      (∀ pubOk, c.pss.state = STATE_SUBSCRIBE →
        (runStep c (.writable false pubOk)).g.interrupted = true ∧
        (runStep c (.writable false pubOk)).g.bad = true) ∧
      (∀ subOk, c.pss.state = STATE_PUBLISH_QOS0 ∨ c.pss.state = STATE_PUBLISH_QOS1 →
        (runStep c (.writable subOk false)).g.interrupted = true ∧
        (runStep c (.writable subOk false)).g.bad = true) ∧
      (c.pss.retries = 2 →
        (runStep c .resend).g.interrupted = true ∧ (runStep c .resend).g.bad = true)) ∧
    (run initConfig scenarioBEvents).1 = ⟨⟨STATE_TEST_FINISH, 0, 0⟩, ⟨true, false⟩⟩ := by
  have hbad : ∀ c : Config, Reachable c → c.g.interrupted = false → c.g.bad = true := by
    intro c hR hi
    obtain ⟨_, _, h3, _⟩ := inv_of_reachable hR
    cases hb : c.g.bad
    · exact absurd (h3 hb).2 (by simp [hi])
    · rfl
  refine ⟨rfl, ?_, ?_, ?_, by decide⟩
  · intro c hR
    obtain ⟨_, _, h3, h4⟩ := inv_of_reachable hR
    exact ⟨fun hb => (h3 hb).1, fun hs => (h4 hs).2⟩
  · intro c hR hb
    exact ((inv_of_reachable hR).2.2.1 hb).2
  · intro c hR hi
    have hb := hbad c hR hi
    obtain ⟨⟨s, pos, r⟩, ⟨intr, bad⟩⟩ := c
    simp only at hi hb
    subst hi hb
    refine ⟨?_, ?_, ?_, ?_, ?_⟩
    · simp [runStep, drive, callback_mqtt]
    · simp [runStep, drive, callback_mqtt]
    · intro pubOk hs
      simp only at hs
      simp [runStep, drive, callback_mqtt, hs]
    · intro subOk hs
      simp only at hs
      have hns : ¬ (s = STATE_SUBSCRIBE) := by
        rcases hs with hs | hs <;> rw [hs] <;> decide
      cases subOk <;> simp [runStep, drive, callback_mqtt, hns, hs]
    · intro hr
      simp only at hr
      subst hr
      simp [runStep, drive, callback_mqtt]

/-- Witness for `failed_flag_lifecycle` at the initial configuration. -/
theorem failed_flag_lifecycle_witness :
    initConfig.g.bad = true ∧
    (initConfig.g.bad = false ↔ initConfig.pss.state = STATE_TEST_FINISH) :=
  ⟨failed_flag_lifecycle.1, failed_flag_lifecycle.2.1 initConfig Reachable.init⟩

end Mqtt
